import Mathlib

/-!
# ZapLinkWeb — verification of the recording scheduler and transcode pipeline

Shallow embedding of the C sources under `src/`:

* `src/transcode.c` — the encoder argument builder `build_ffmpeg_args`
  (lines 38-187) embedded as a pure Lean function over the same
  configuration space.
* `src/scheduler.c` — the scheduler poll cycle (`scheduler_thread`,
  lines 58-191), `stop_recording` (lines 205-220) and the slot table,
  embedded as explicit state passing over a `SchedState` record plus an
  effect trace of the process/persistence operations the code performs.
* `src/web.c` — the `/stream/` and `/transcode/` request handlers
  (lines 331-427) and their path-segment parsing, embedded as functions
  from the discovered backend address and request data to a response.

C `int` values are modelled as `Int`, process ids as `Nat` (0 meaning
"slot empty", as in the C code), and C strings as Lean `String`
(fixed-size buffer truncation of `snprintf`/`strncpy` is not modelled;
no claim below concerns buffer overflow). Persistence (SQLite) is
modelled as an in-memory list of timers; inserts and deletes are assumed
to succeed (the claims under study do not concern persistence failure).
-/

namespace ZapLinkWeb

/-! ## Transcode configuration (include/transcode.h lines 22-47) -/

/-- Enum `TranscodeBackend` from include/transcode.h lines 22-27. -/
inductive TranscodeBackend where
  | software
  | qsv
  | nvenc
  | vaapi
deriving DecidableEq, Repr

/-- Enum `TranscodeCodec` from include/transcode.h lines 32-37. -/
inductive TranscodeCodec where
  | h264
  | hevc
  | av1
  | copy
deriving DecidableEq, Repr

/-- Struct `TranscodeConfig` from include/transcode.h lines 42-47.
`surround51` is a C `int` used as a truth value (0 or 1). -/
structure TranscodeConfig where
  backend : TranscodeBackend
  codec : TranscodeCodec
  bitrate_kbps : Int
  surround51 : Int
deriving DecidableEq, Repr

/-! ## Encoder argument builder (src/transcode.c lines 33-187)

The C function pushes arguments onto a single `argv` array in one linear
pass; the embedding splits that pass into the blocks visible in the
source (hardware init, input, video codec, audio codec, container
format) and concatenates them in the order the C code pushes them. -/

/-- Constant of src/transcode.c line 34: stereo AAC/Opus bitrate. -/
def default_audio_bitrate : String := "128k"

/-- Constant of src/transcode.c line 35: 5.1 AAC bitrate. -/
def default_aac_surround_bitrate : String := "384k"

/-- Constant of src/transcode.c line 36: 5.1 Opus bitrate. -/
def default_surround_bitrate : String := "384k"

/-- Hardware device initialization arguments, src/transcode.c lines 53-63:
emitted for vaapi and qsv, before the input argument. -/
def hwInitArgs : TranscodeBackend → List String
  | .vaapi => ["-init_hw_device", "vaapi=gpu:/dev/dri/renderD128", "-filter_hw_device", "gpu"]
  | .qsv => ["-init_hw_device", "qsv=hw", "-filter_hw_device", "hw"]
  | _ => []

/-- Video encoder selection and quality knobs for non-copy codecs,
src/transcode.c lines 78-128 (one branch per backend). -/
def videoEncoderArgs (backend : TranscodeBackend) (codec : TranscodeCodec) : List String :=
  match backend with
  | .software =>
      ["-c:v",
       if codec = .hevc then "libx265" else if codec = .av1 then "libsvtav1" else "libx264",
       "-preset", "fast", "-crf", "23"]
  | .nvenc =>
      ["-c:v",
       if codec = .hevc then "hevc_nvenc" else if codec = .av1 then "av1_nvenc" else "h264_nvenc",
       "-preset", "p4", "-rc", "constqp", "-qp", "23"]
  | .qsv =>
      ["-vf", "yadif=0:-1:0,format=nv12,hwupload=extra_hw_frames=64,format=qsv",
       "-c:v",
       if codec = .hevc then "hevc_qsv" else if codec = .av1 then "av1_qsv" else "h264_qsv",
       "-global_quality", "23"]
  | .vaapi =>
      ["-vf", "format=nv12,hwupload",
       "-c:v",
       if codec = .hevc then "hevc_vaapi" else if codec = .av1 then "av1_vaapi" else "h264_vaapi",
       "-qp", "23"]

/-- Audio codec arguments for non-copy codecs, src/transcode.c lines
130-167: Opus for av1, AAC otherwise; 5.1 channel remap when
`surround51` is nonzero, stereo downmix otherwise. -/
def audioArgs (codec : TranscodeCodec) (surround51 : Int) : List String :=
  if codec = .av1 then
    if surround51 ≠ 0 then
      ["-af", "channelmap=channel_layout=5.1", "-c:a", "libopus",
       "-mapping_family", "1", "-b:a", default_surround_bitrate]
    else
      ["-ac", "2", "-c:a", "libopus", "-b:a", default_audio_bitrate]
  else
    if surround51 ≠ 0 then
      ["-af", "channelmap=channel_layout=5.1", "-c:a", "aac",
       "-b:a", default_aac_surround_bitrate]
    else
      ["-ac", "2", "-c:a", "aac", "-b:a", default_audio_bitrate]

/-- Video block, src/transcode.c lines 73-168: stream copy for
codec = copy (no encoder, quality or audio arguments), otherwise the
encoder block followed by the audio block. -/
def videoArgs (config : TranscodeConfig) : List String :=
  if config.codec = .copy then ["-c:v", "copy"]
  else videoEncoderArgs config.backend config.codec ++ audioArgs config.codec config.surround51

/-- Container format block, src/transcode.c lines 171-179: WebM for av1,
fragmented MP4 otherwise. -/
def formatArgs (codec : TranscodeCodec) : List String :=
  if codec = .av1 then ["-f", "webm"]
  else ["-f", "mp4", "-movflags", "frag_keyframe+empty_moov+default_base_moof"]

/-- Function `build_ffmpeg_args`, src/transcode.c lines 38-187: the complete
ordered argument vector ("ffmpeg", hardware init for qsv/vaapi, "-re",
the input, the video/audio blocks, the container format, "pipe:1"). -/
def build_ffmpeg_args (input_url : String) (config : TranscodeConfig) : List String :=
  ["ffmpeg"]
  ++ hwInitArgs config.backend
  ++ ["-re", "-i", input_url]
  ++ videoArgs config
  ++ formatArgs config.codec
  ++ ["pipe:1"]

/-! ## Stream dispatcher request handling (src/web.c lines 331-427)

The `/stream/` and `/transcode/` routes of `client_handler`.  A response
is either an error (the HTTP status code and status text the handler
writes) or an invocation of the process relay (`transcode_stream`, which
builds `core ++ "/stream/" ++ channel` as the input source,
src/transcode.c lines 269-273). -/

/-- Outcome of a `/stream/` or `/transcode/` request. -/
inductive StreamResponse where
  | errorResponse (status : Nat) (statusText : String)
  | relay (input_url : String) (cfg : TranscodeConfig)
deriving DecidableEq, Repr

/-- Backend name lookup for the process-wide configuration,
src/web.c lines 346-349 (default: software). -/
def parseBackendName (s : String) : TranscodeBackend :=
  if s = "qsv" then .qsv
  else if s = "nvenc" then .nvenc
  else if s = "vaapi" then .vaapi
  else .software

/-- Codec name lookup for the process-wide configuration,
src/web.c lines 351-354 (default: h264). -/
def parseCodecName (s : String) : TranscodeCodec :=
  if s = "hevc" then .hevc
  else if s = "av1" then .av1
  else if s = "copy" then .copy
  else .h264

/-- The `/stream/<chan>` route, src/web.c lines 331-364.  `core` is the
result of `get_core_base_url` (discovery.c lines 201-204, `none` while
the backend address is undiscovered); `cfg_backend`/`cfg_codec` are the
process-wide `app_config` strings. -/
def handle_stream_request (core : Option String) (chan : String)
    (cfg_backend cfg_codec : String) : StreamResponse :=
  match core with
  | none => .errorResponse 503 "Service Unavailable"
  | some c =>
      let tc : TranscodeConfig :=
        { backend := parseBackendName cfg_backend,
          codec := parseCodecName cfg_codec,
          bitrate_kbps := 0, surround51 := 0 }
      .relay (c ++ "/stream/" ++ chan) tc

/-- Default `TranscodeConfig` of the `/transcode/` route,
src/web.c lines 369-373. -/
def defaultTranscodeConfig : TranscodeConfig :=
  { backend := .software, codec := .h264, bitrate_kbps := 0, surround51 := 0 }

/-- The bitrate-token test of src/web.c line 396: first character `b` or
`B` and second character a digit (for a one-character token the C code
reads the NUL terminator, which is not a digit). -/
def isBitrateToken (token : String) : Bool :=
  match token.toList with
  | c0 :: c1 :: _ => (c0 == 'b' || c0 == 'B') && c1.isDigit
  | _ => false

/-- Model of `atoi` on a digit-led suffix (src/web.c line 397 applies it to
`token + 1`, whose first character is a digit by the guard): the value
of the maximal leading digit run. -/
def atoiDigits : List Char → Nat → Nat
  | [], acc => acc
  | c :: rest, acc =>
      if c.isDigit then atoiDigits rest (acc * 10 + (c.toNat - '0'.toNat)) else acc

/-- One pass of the `/transcode/` path-segment loop, src/web.c lines
379-406: each keyword segment overwrites its field unconditionally, any
non-keyword segment becomes the channel identifier. -/
def applyTranscodeToken (acc : TranscodeConfig × String) (token : String) :
    TranscodeConfig × String :=
  let tc := acc.1
  let chan := acc.2
  if token = "software" then ({ tc with backend := .software }, chan)
  else if token = "qsv" then ({ tc with backend := .qsv }, chan)
  else if token = "nvenc" then ({ tc with backend := .nvenc }, chan)
  else if token = "vaapi" then ({ tc with backend := .vaapi }, chan)
  else if token = "h264" then ({ tc with codec := .h264 }, chan)
  else if token = "hevc" then ({ tc with codec := .hevc }, chan)
  else if token = "av1" then ({ tc with codec := .av1 }, chan)
  else if token = "copy" then ({ tc with codec := .copy }, chan)
  else if token = "ac6" then ({ tc with surround51 := 1 }, chan)
  else if isBitrateToken token then
    ({ tc with bitrate_kbps := Int.ofNat (atoiDigits token.toList.tail 0) }, chan)
  else (tc, token)

/-- The `/transcode/` path-segment parse (the `strtok` loop of
src/web.c lines 377-406) over the already-split segments. -/
def parseTranscodePath (tokens : List String) : TranscodeConfig × String :=
  tokens.foldl applyTranscodeToken (defaultTranscodeConfig, "")

/-- The `/transcode/...` route, src/web.c lines 365-427: parse the
segments, then fail with 503 if the backend is undiscovered, with 400 if
no channel segment was found, otherwise invoke the relay. -/
def handle_transcode_request (core : Option String) (tokens : List String) :
    StreamResponse :=
  let parsed := parseTranscodePath tokens
  match core with
  | none => .errorResponse 503 "Service Unavailable"
  | some c =>
      if parsed.2.length = 0 then .errorResponse 400 "Bad Request"
      else .relay (c ++ "/stream/" ++ parsed.2) parsed.1

/-! ## Recording scheduler (src/scheduler.c)

The scheduler's shared state is the fixed array `active_recordings`
(16 `ActiveRecording` slots, all zeroed at start), the SQLite timers
table, and the rowid/pid counters of the environment.  The poll cycle
(`scheduler_thread` body, lines 62-188) and `stop_recording` are
embedded as state transformers that also emit the trace of process and
persistence operations they perform.  All slot-table accesses in the C
code are under one mutex, so a cycle and a manual stop are modelled as
atomic steps. -/

/-- Struct `Timer` from include/db.h lines 23-30. -/
structure Timer where
  id : Int
  type : String
  title : String
  channel_num : String
  start_time : Int
  end_time : Int
deriving DecidableEq, Repr

/-- Struct `ActiveRecording` from src/scheduler.c lines 41-47.
`pid = 0` means the slot is empty. -/
structure ActiveRecording where
  timer_id : Int
  recording_id : Int
  pid : Nat
  end_time : Int
  path : String
deriving DecidableEq, Repr

/-- Constant `MAX_ACTIVE_RECORDINGS` of src/scheduler.c line 50. -/
def MAX_ACTIVE_RECORDINGS : Nat := 16

/-- A zeroed slot (`start_scheduler` memsets the table, line 195). -/
def emptySlot : ActiveRecording :=
  { timer_id := 0, recording_id := 0, pid := 0, end_time := 0, path := "" }

/-- Process and persistence operations performed by the scheduler. -/
inductive Effect where
  | spawn (pid : Nat) (input_url : String) (outPath : String)
  | sigterm (pid : Nat)
  | waitExit (pid : Nat)
  | insertRecording (recId : Int) (title chan : String) (startMs endMs : Int) (outPath : String)
  | deleteTimer (id : Int)
deriving DecidableEq, Repr

/-- Scheduler-visible state: the slot table, the persisted timers table,
and the next SQLite recording rowid / next pid the environment hands
out. -/
structure SchedState where
  slots : List ActiveRecording
  timers : List Timer
  next_rec_id : Int
  next_pid : Nat
deriving DecidableEq, Repr

/-- Query `db_get_pending_timers`, src/db.c lines 198-202: timers with
`start_time <= now AND end_time > now`. -/
def db_get_pending_timers (now : Int) (timers : List Timer) : List Timer :=
  timers.filter (fun t => decide (t.start_time ≤ now) && decide (now < t.end_time))

/-- Operation `db_delete_timer`, src/db.c lines 157-167: delete the row with the
given id. -/
def db_delete_timer (id : Int) (timers : List Timer) : List Timer :=
  timers.filter (fun t => decide (t.id ≠ id))

/-- Title sanitization, src/scheduler.c lines 89-94: truncate to 127
characters and replace `/`, `\` and spaces by `_`. -/
def sanitizeTitle (title : String) : String :=
  String.mk ((title.toList.take 127).map (fun c =>
    if c = '/' ∨ c = '\\' ∨ c = ' ' then '_' else c))

/-- Output path synthesis, src/scheduler.c line 96. -/
def recordingFilename (title : String) (now_ms : Int) : String :=
  "recordings/" ++ sanitizeTitle title ++ "-" ++ toString now_ms ++ ".mp4"

/-- Constant `WEB_PORT` of include/config.h line 14. -/
def WEB_PORT : Nat := 3000

/-- The system's own live-proxy endpoint used as the recorder's input,
src/scheduler.c lines 121-122. -/
def schedulerStreamUrl (channel_num : String) : String :=
  "http://127.0.0.1:" ++ toString WEB_PORT ++ "/stream/" ++ channel_num

/-- The already-active test of src/scheduler.c lines 72-80: some slot
(occupied or not — only `timer_id` is compared) holds the timer id. -/
def is_active (slots : List ActiveRecording) (timerId : Int) : Bool :=
  slots.any (fun s => decide (s.timer_id = timerId))

/-- Slot population, src/scheduler.c lines 138-149: the first slot with
`pid == 0` receives all five fields; if none exists the table is left
unchanged. -/
def populateFirstFree (slots : List ActiveRecording) (timerId recId : Int)
    (pid : Nat) (endTime : Int) (path : String) : List ActiveRecording :=
  match slots with
  | [] => []
  | s :: rest =>
      if s.pid = 0 then
        { timer_id := timerId, recording_id := recId, pid := pid,
          end_time := endTime, path := path } :: rest
      else s :: populateFirstFree rest timerId recId pid endTime path

/-- Handling of one due timer, src/scheduler.c lines 70-151: skip if
already active; otherwise synthesize the output path, insert the
Recording row (modelled as always succeeding, yielding `next_rec_id`),
fork/exec ffmpeg against the local `/stream/` endpoint (the fork happens
before any free-slot check), then populate the first free slot. -/
def start_one (now_ms : Int) (st : SchedState) (t : Timer) :
    SchedState × List Effect :=
  if is_active st.slots t.id then (st, [])
  else
    let filename := recordingFilename t.title now_ms
    let rec_id := st.next_rec_id
    let pid := st.next_pid
    let slots := populateFirstFree st.slots t.id rec_id pid t.end_time filename
    ({ slots := slots, timers := st.timers,
       next_rec_id := rec_id + 1, next_pid := pid + 1 },
     [Effect.insertRecording rec_id t.title t.channel_num now_ms 0 filename,
      Effect.spawn pid (schedulerStreamUrl t.channel_num) filename])

/-- The due-timer loop body over the pending list, src/scheduler.c
lines 70-152. -/
def processDueTimers (now_ms : Int) : SchedState → List Timer → SchedState × List Effect
  | st, [] => (st, [])
  | st, t :: rest =>
      let r1 := start_one now_ms st t
      let r2 := processDueTimers now_ms r1.1 rest
      (r2.1, r1.2 ++ r2.2)

/-- Phase 1 of the poll cycle: query pending timers once, then process
each (src/scheduler.c lines 66-154). -/
def dueScan (now_ms : Int) (st : SchedState) : SchedState × List Effect :=
  processDueTimers now_ms st (db_get_pending_timers now_ms st.timers)

/-- Expiry/liveness handling of one slot, src/scheduler.c lines 158-184.
`dead pid` models `waitpid(pid, ..., WNOHANG) != 0`.  In the expiry
branch the C code resets the slot's `pid` and `timer_id` to 0 at lines
168-169 and only afterwards, at line 174, calls
`db_delete_timer(active_recordings[j].timer_id)`, so the delete is
issued for the already-zeroed `timer_id` field. -/
def expireSlot (now_ms : Int) (dead : Nat → Bool) (s : ActiveRecording)
    (timers : List Timer) : ActiveRecording × List Timer × List Effect :=
  if s.pid ≠ 0 then
    if now_ms ≥ s.end_time then
      let s1 : ActiveRecording := { s with pid := 0, timer_id := 0 }
      (s1, db_delete_timer s1.timer_id timers,
       [Effect.sigterm s.pid, Effect.waitExit s.pid, Effect.deleteTimer s1.timer_id])
    else if dead s.pid then
      ({ s with pid := 0, timer_id := 0 }, timers, [])
    else (s, timers, [])
  else (s, timers, [])

/-- Phase 2 of the poll cycle over all slots in order, src/scheduler.c
lines 157-186. -/
def expiryScanSlots (now_ms : Int) (dead : Nat → Bool) :
    List ActiveRecording → List Timer →
    List ActiveRecording × List Timer × List Effect
  | [], timers => ([], timers, [])
  | s :: rest, timers =>
      let r1 := expireSlot now_ms dead s timers
      let r2 := expiryScanSlots now_ms dead rest r1.2.1
      (r1.1 :: r2.1, r2.2.1, r1.2.2 ++ r2.2.2)

/-- One full poll cycle of `scheduler_thread` (src/scheduler.c lines
62-188): due-timer scan, then the combined expiry/liveness scan. -/
def pollCycle (now_ms : Int) (dead : Nat → Bool) (st : SchedState) :
    SchedState × List Effect :=
  let r1 := dueScan now_ms st
  let r2 := expiryScanSlots now_ms dead r1.1.slots r1.1.timers
  ({ slots := r2.1, timers := r2.2.1,
     next_rec_id := r1.1.next_rec_id, next_pid := r1.1.next_pid },
   r1.2 ++ r2.2.2)

/-- The slot search of `stop_recording`, src/scheduler.c lines 208-217:
first slot with the recording id and a nonzero pid is SIGTERMed, waited
for, and its pid cleared (its `timer_id` is left in place). -/
def stopRecordingSlots (recId : Int) :
    List ActiveRecording → List ActiveRecording × List Effect × Bool
  | [] => ([], [], false)
  | s :: rest =>
      if s.recording_id = recId ∧ s.pid ≠ 0 then
        ({ s with pid := 0 } :: rest,
         [Effect.sigterm s.pid, Effect.waitExit s.pid], true)
      else
        let r := stopRecordingSlots recId rest
        (s :: r.1, r.2.1, r.2.2)

/-- Function `stop_recording`, src/scheduler.c lines 205-220: returns the
found/not-found flag; never touches persistence. -/
def stop_recording (recId : Int) (st : SchedState) :
    SchedState × List Effect × Bool :=
  let r := stopRecordingSlots recId st.slots
  ({ st with slots := r.1 }, r.2.1, r.2.2)

/-- The zeroed slot table of `start_scheduler`, src/scheduler.c
lines 193-203. -/
def initialSlots : List ActiveRecording :=
  List.replicate MAX_ACTIVE_RECORDINGS emptySlot

/-- Scheduler start state: zeroed slot table, arbitrary persisted timers
and environment counters. -/
def initState (timers : List Timer) (rid : Int) (pid : Nat) : SchedState :=
  { slots := initialSlots, timers := timers, next_rec_id := rid, next_pid := pid }

/-- States reachable by the scheduler: from start, by poll cycles, by
manual stops, and by the HTTP layer adding or deleting timer rows
(src/web.c timer API). -/
inductive Reachable : SchedState → Prop where
  | init (timers : List Timer) (rid : Int) (pid : Nat) :
      Reachable (initState timers rid pid)
  | poll {st} (now : Int) (dead : Nat → Bool) :
      Reachable st → Reachable (pollCycle now dead st).1
  | stop {st} (recId : Int) :
      Reachable st → Reachable (stop_recording recId st).1
  | timerAdded {st} (t : Timer) :
      Reachable st → Reachable { st with timers := t :: st.timers }
  | timerRemoved {st} (id : Int) :
      Reachable st → Reachable { st with timers := db_delete_timer id st.timers }

/-- No timer identity occupies two occupied slots. -/
def SlotsDisjoint (slots : List ActiveRecording) : Prop :=
  slots.Pairwise (fun a b => ¬(a.pid ≠ 0 ∧ b.pid ≠ 0 ∧ a.timer_id = b.timer_id))

/-! ## Concrete scenarios -/

/-- An occupied slot for timer 1 whose scheduled end (500 ms) has
passed at poll time 600 ms. -/
def c1Slot : ActiveRecording :=
  { timer_id := 1, recording_id := 1, pid := 5, end_time := 500,
    path := "recordings/Show-0.mp4" }

/-- The originating one-shot timer of `c1Slot`, still in persistence. -/
def c1Timer : Timer :=
  { id := 1, type := "once", title := "Show", channel_num := "5.1",
    start_time := 0, end_time := 500 }

/-- State at the poll that should expire `c1Slot`. -/
def c1State : SchedState :=
  { slots := [c1Slot], timers := [c1Timer], next_rec_id := 2, next_pid := 6 }

/-- Sixteen occupied slots (timer ids 1..16, all still running). -/
def c2Slots : List ActiveRecording :=
  (List.range MAX_ACTIVE_RECORDINGS).map (fun j =>
    { timer_id := Int.ofNat j + 1, recording_id := Int.ofNat j + 1,
      pid := j + 1, end_time := 1000000, path := "" })

/-- A seventeenth due timer while all sixteen slots are occupied. -/
def c2Timer : Timer :=
  { id := 100, type := "once", title := "Full", channel_num := "2.1",
    start_time := 0, end_time := 1000000 }

/-- State with a full slot table and one more due timer. -/
def c2State : SchedState :=
  { slots := c2Slots, timers := [c2Timer], next_rec_id := 50, next_pid := 50 }

/-! ## Claims -/

/-- C1: the claim states that the expiry scan terminates and reaps the
process, empties the slot, and deletes the originating timer from
persistence.  On the code, the first three happen, but the slot's
`timer_id` is zeroed before `db_delete_timer` reads it
(src/scheduler.c lines 168-174), so the delete is issued for timer id 0
and the originating timer (id 1 here) remains in the timers table. -/
theorem C1_expiry_deletes_timer_zero :
    Effect.sigterm 5 ∈ (pollCycle 600 (fun _ => false) c1State).2 ∧
    Effect.waitExit 5 ∈ (pollCycle 600 (fun _ => false) c1State).2 ∧
    (∀ s ∈ (pollCycle 600 (fun _ => false) c1State).1.slots, s.pid = 0) ∧
    Effect.deleteTimer 0 ∈ (pollCycle 600 (fun _ => false) c1State).2 ∧
    Effect.deleteTimer 1 ∉ (pollCycle 600 (fun _ => false) c1State).2 ∧
    c1Timer ∈ (pollCycle 600 (fun _ => false) c1State).1.timers := by
  decide

/-- C2: the claim states that with all 16 slots occupied the scheduler
starts nothing for a further due timer (no process spawned, no slot
populated).  On the code, the Recording row is inserted and ffmpeg is
forked before the free-slot search (src/scheduler.c lines 102-136), so
with a full table the cycle still spawns a process and creates a
Recording entry; only the slot table is left unchanged, leaving the
spawned process untracked. -/
theorem C2_full_table_still_spawns :
    (pollCycle 1000 (fun _ => false) c2State).1.slots = c2Slots ∧
    Effect.spawn 50 (schedulerStreamUrl "2.1") (recordingFilename "Full" 1000)
      ∈ (pollCycle 1000 (fun _ => false) c2State).2 ∧
    Effect.insertRecording 50 "Full" "2.1" 1000 0 (recordingFilename "Full" 1000)
      ∈ (pollCycle 1000 (fun _ => false) c2State).2 := by
  decide

/-- C5: two configurations agreeing on backend, codec and surround flag
but differing arbitrarily in `bitrate_kbps` yield identical argument
vectors — the builder never consults `bitrate_kbps`. -/
theorem C5_bitrate_not_consulted (src : String) (c1 c2 : TranscodeConfig)
    (hb : c1.backend = c2.backend) (hc : c1.codec = c2.codec)
    (hs : c1.surround51 = c2.surround51) :
    build_ffmpeg_args src c1 = build_ffmpeg_args src c2 := by
  obtain ⟨b1, k1, r1, s1⟩ := c1
  obtain ⟨b2, k2, r2, s2⟩ := c2
  cases hb; cases hc; cases hs
  rfl

/-- Witness for C5 at a concrete pair of configurations differing only
in bitrate. -/
theorem C5_bitrate_not_consulted_witness :
    build_ffmpeg_args "http://s"
      { backend := .software, codec := .h264, bitrate_kbps := 1000, surround51 := 0 } =
    build_ffmpeg_args "http://s"
      { backend := .software, codec := .h264, bitrate_kbps := 9999, surround51 := 0 } :=
  C5_bitrate_not_consulted "http://s" _ _ rfl rfl rfl

/-- C8: the argument builder is a pure function of (source, config):
configurations equal in all four fields yield identical vectors. -/
theorem C8_builder_deterministic (src : String) (c1 c2 : TranscodeConfig)
    (hb : c1.backend = c2.backend) (hc : c1.codec = c2.codec)
    (hr : c1.bitrate_kbps = c2.bitrate_kbps) (hs : c1.surround51 = c2.surround51) :
    build_ffmpeg_args src c1 = build_ffmpeg_args src c2 := by
  obtain ⟨b1, k1, r1, s1⟩ := c1
  obtain ⟨b2, k2, r2, s2⟩ := c2
  cases hb; cases hc; cases hr; cases hs
  rfl

/-- Witness for C8 at a concrete configuration. -/
theorem C8_builder_deterministic_witness :
    build_ffmpeg_args "http://s"
      { backend := .vaapi, codec := .hevc, bitrate_kbps := 0, surround51 := 1 } =
    build_ffmpeg_args "http://s"
      { backend := .vaapi, codec := .hevc, bitrate_kbps := 0, surround51 := 1 } :=
  C8_builder_deterministic "http://s" _ _ rfl rfl rfl rfl

/-- C6 counterexample: for codec = copy (which is not av1, so the claim
as stated requires an AAC encoder in the vector) the builder emits no
audio arguments at all — neither "aac" nor "libopus" occurs. -/
theorem C6_copy_config_emits_no_audio_encoder :
    TranscodeConfig.codec
      { backend := .software, codec := .copy, bitrate_kbps := 0, surround51 := 0 }
      ≠ TranscodeCodec.av1 ∧
    "aac" ∉ build_ffmpeg_args "http://s"
      { backend := .software, codec := .copy, bitrate_kbps := 0, surround51 := 0 } ∧
    "libopus" ∉ build_ffmpeg_args "http://s"
      { backend := .software, codec := .copy, bitrate_kbps := 0, surround51 := 0 } := by
  decide

/-- C9: a live-view (`/stream/`) or ad-hoc transcode (`/transcode/`)
request arriving while discovery has not yet resolved the backend
address fails fast with the distinct 503 Service Unavailable response;
no relay is invoked. -/
theorem C9_undiscovered_backend_fails_fast :
    (∀ chan cfg_backend cfg_codec : String,
       handle_stream_request none chan cfg_backend cfg_codec =
         StreamResponse.errorResponse 503 "Service Unavailable") ∧
    (∀ tokens : List String,
       handle_transcode_request none tokens =
         StreamResponse.errorResponse 503 "Service Unavailable") :=
  ⟨fun _ _ _ => rfl, fun _ => rfl⟩

/-- Lifting an infix of a list to an infix of any left-extension. -/
theorem infix_append_of_infix {α : Type} {l l2 : List α} (l1 : List α)
    (h : l <:+: l2) : l <:+: l1 ++ l2 := by
  obtain ⟨s, t, rfl⟩ := h
  exact ⟨l1 ++ s, t, by simp⟩

/-- When the codec is not copy, the audio block occurs contiguously in
the built vector, after the input and the video-encoder block. -/
theorem audioArgs_isInfix (src : String) (cfg : TranscodeConfig)
    (h : cfg.codec ≠ .copy) :
    audioArgs cfg.codec cfg.surround51 <:+: build_ffmpeg_args src cfg :=
  ⟨["ffmpeg"] ++ hwInitArgs cfg.backend ++ ["-re", "-i", src]
      ++ videoEncoderArgs cfg.backend cfg.codec,
   formatArgs cfg.codec ++ ["pipe:1"], by
    simp [build_ffmpeg_args, videoArgs, h]⟩

/-- C6 (amended: the rules apply to configurations whose codec is not
copy; for codec = copy the builder emits no audio arguments at all):
when codec = av1 an Opus encoder is selected, otherwise AAC; when the
surround flag is set the 5.1 channel-layout remap filter and the
surround bitrate constant are emitted, otherwise a downmix to 2 channels
at the stereo bitrate constant. -/
theorem C6_audio_selection (src : String) (cfg : TranscodeConfig)
    (h : cfg.codec ≠ .copy) :
    ((if cfg.codec = .av1 then ["-c:a", "libopus"] else ["-c:a", "aac"])
       <:+: build_ffmpeg_args src cfg) ∧
    (cfg.surround51 ≠ 0 →
       ["-af", "channelmap=channel_layout=5.1"] <:+: build_ffmpeg_args src cfg ∧
       ((if cfg.codec = .av1 then ["-b:a", default_surround_bitrate]
         else ["-b:a", default_aac_surround_bitrate]) <:+: build_ffmpeg_args src cfg)) ∧
    (cfg.surround51 = 0 →
       ["-ac", "2"] <:+: build_ffmpeg_args src cfg ∧
       ["-b:a", default_audio_bitrate] <:+: build_ffmpeg_args src cfg) := by
  have hinf := audioArgs_isInfix src cfg h
  refine ⟨?_, fun hs => ⟨?_, ?_⟩, fun hs => ⟨?_, ?_⟩⟩ <;>
    refine List.IsInfix.trans ?_ hinf <;>
    by_cases hav : cfg.codec = TranscodeCodec.av1 <;>
    first
      | (by_cases hs0 : cfg.surround51 = 0 <;>
          simp [audioArgs, hav, hs0] <;> decide)
      | (simp [audioArgs, hav, hs] <;> decide)

/-- Witness for C6 at a concrete non-copy configuration: the AAC
encoder pair occurs in the vector for software/h264/stereo. -/
theorem C6_audio_selection_witness :
    ["-c:a", "aac"] <:+: build_ffmpeg_args "http://s"
      { backend := .software, codec := .h264, bitrate_kbps := 0, surround51 := 0 } := by
  have h := C6_audio_selection "http://s"
    { backend := .software, codec := .h264, bitrate_kbps := 0, surround51 := 0 }
    (by decide)
  simpa using h.1

/-- C7: for backend=vaapi, codec=hevc, surround on, the vector contains
the vaapi upload filter, the hevc_vaapi encoder, the qp 23 pair, the 5.1
remap filter and the AAC surround bitrate, in that relative order; and
for qsv/vaapi the device-initialization pair precedes the `-i` input
argument. -/
theorem C7_vaapi_hevc_surround_order (src : String) (br s : Int) (hs : s ≠ 0) :
    List.Sublist
      ["format=nv12,hwupload", "hevc_vaapi", "-qp", "23",
       "channelmap=channel_layout=5.1", default_aac_surround_bitrate]
      (build_ffmpeg_args src
        { backend := .vaapi, codec := .hevc, bitrate_kbps := br, surround51 := s }) ∧
    ["-qp", "23"] <:+:
      build_ffmpeg_args src
        { backend := .vaapi, codec := .hevc, bitrate_kbps := br, surround51 := s } ∧
    (∀ cfg : TranscodeConfig, cfg.backend = .qsv ∨ cfg.backend = .vaapi →
      (build_ffmpeg_args src cfg).take 8 =
        ["ffmpeg"] ++ hwInitArgs cfg.backend ++ ["-re", "-i", src]) := by
  have hb : build_ffmpeg_args src
      { backend := .vaapi, codec := .hevc, bitrate_kbps := br, surround51 := s } =
      ["ffmpeg", "-init_hw_device", "vaapi=gpu:/dev/dri/renderD128",
       "-filter_hw_device", "gpu", "-re", "-i", src] ++
      ["-vf", "format=nv12,hwupload", "-c:v", "hevc_vaapi", "-qp", "23",
       "-af", "channelmap=channel_layout=5.1", "-c:a", "aac", "-b:a", "384k",
       "-f", "mp4", "-movflags", "frag_keyframe+empty_moov+default_base_moof",
       "pipe:1"] := by
    simp [build_ffmpeg_args, hwInitArgs, videoArgs, videoEncoderArgs, audioArgs,
          formatArgs, default_aac_surround_bitrate, hs]
  refine ⟨?_, ?_, ?_⟩
  · rw [hb]
    exact List.Sublist.trans (by decide) (List.sublist_append_right _ _)
  · rw [hb]
    exact infix_append_of_infix _ (by decide)
  · intro cfg hbk
    obtain ⟨bk, kc, rr, ss⟩ := cfg
    rcases hbk with h' | h' <;> cases bk <;>
      first
        | rfl
        | simp at h'

/-- Witness for C7 at a concrete source and surround value. -/
theorem C7_vaapi_hevc_surround_order_witness :
    ["-qp", "23"] <:+: build_ffmpeg_args "http://s"
      { backend := .vaapi, codec := .hevc, bitrate_kbps := 0, surround51 := 1 } :=
  (C7_vaapi_hevc_surround_order "http://s" 0 1 (by decide)).2.1

/-! ### Helper lemmas about the manual stop and the already-active test -/

/-- The stop flag is set exactly when some slot holds the recording id
with a nonzero pid. -/
theorem stopRecordingSlots_found_iff (recId : Int) (slots : List ActiveRecording) :
    (stopRecordingSlots recId slots).2.2 = true ↔
      ∃ s ∈ slots, s.recording_id = recId ∧ s.pid ≠ 0 := by
  induction slots with
  | nil => simp [stopRecordingSlots]
  | cons s rest ih =>
    by_cases h : s.recording_id = recId ∧ s.pid ≠ 0
    · simp [stopRecordingSlots, h]
    · simp only [stopRecordingSlots, if_neg h]
      rw [List.exists_mem_cons_iff]
      simpa [h] using ih

/-- An unsuccessful stop search leaves the table unchanged and performs
no process operation. -/
theorem stopRecordingSlots_not_found (recId : Int) (slots : List ActiveRecording)
    (h : (stopRecordingSlots recId slots).2.2 = false) :
    (stopRecordingSlots recId slots).1 = slots ∧
    (stopRecordingSlots recId slots).2.1 = [] := by
  induction slots with
  | nil => simp [stopRecordingSlots]
  | cons s rest ih =>
    by_cases hp : s.recording_id = recId ∧ s.pid ≠ 0
    · simp [stopRecordingSlots, hp] at h
    · simp only [stopRecordingSlots, if_neg hp] at h ⊢
      obtain ⟨h1, h2⟩ := ih h
      simp [h1, h2]

/-- Stopping at an explicitly located first match: the matched slot's
pid is cleared (its other fields, `timer_id` included, are retained) and
exactly one SIGTERM/wait pair is performed. -/
theorem stopRecordingSlots_at (recId : Int) (pre post : List ActiveRecording)
    (s : ActiveRecording) (hs : s.recording_id = recId) (hpid : s.pid ≠ 0)
    (hpre : ∀ x ∈ pre, ¬(x.recording_id = recId ∧ x.pid ≠ 0)) :
    stopRecordingSlots recId (pre ++ s :: post) =
      (pre ++ { s with pid := 0 } :: post,
       [Effect.sigterm s.pid, Effect.waitExit s.pid], true) := by
  induction pre with
  | nil => simp [stopRecordingSlots, hs, hpid]
  | cons a as ih =>
    have ha : ¬(a.recording_id = recId ∧ a.pid ≠ 0) := hpre a (by simp)
    have ih2 := ih (fun x hx => hpre x (by simp [hx]))
    simp [stopRecordingSlots, ha, ih2]

/-- A successful stop search decomposes the table at the first match. -/
theorem stopRecordingSlots_found (recId : Int) (slots : List ActiveRecording)
    (h : (stopRecordingSlots recId slots).2.2 = true) :
    ∃ pre s post, slots = pre ++ s :: post ∧ s.recording_id = recId ∧ s.pid ≠ 0 ∧
      (stopRecordingSlots recId slots).1 = pre ++ { s with pid := 0 } :: post ∧
      (stopRecordingSlots recId slots).2.1 =
        [Effect.sigterm s.pid, Effect.waitExit s.pid] := by
  induction slots with
  | nil => simp [stopRecordingSlots] at h
  | cons s rest ih =>
    by_cases hp : s.recording_id = recId ∧ s.pid ≠ 0
    · refine ⟨[], s, rest, by simp, hp.1, hp.2, ?_, ?_⟩ <;>
        simp [stopRecordingSlots, hp]
    · simp only [stopRecordingSlots, if_neg hp] at h ⊢
      obtain ⟨pre, m, post, heq, h1, h2, h3, h4⟩ := ih h
      exact ⟨s :: pre, m, post, by simp [heq], h1, h2, by simp [h3], by simp [h4]⟩

/-- The already-active test succeeds whenever some slot holds the timer
id. -/
theorem is_active_of_mem {slots : List ActiveRecording} {tid : Int}
    (h : ∃ x ∈ slots, x.timer_id = tid) : is_active slots tid = true := by
  obtain ⟨x, hx, hxt⟩ := h
  simp only [is_active, List.any_eq_true]
  exact ⟨x, hx, by simp [hxt]⟩

/-- A due timer classified as already active is skipped entirely: no
state change and no effect. -/
theorem start_one_of_active (now : Int) (st : SchedState) (t : Timer)
    (h : is_active st.slots t.id = true) :
    start_one now st t = (st, []) := by
  simp [start_one, h]

/-- C4: the manual stop returns true and performs SIGTERM/wait/clear on
the matched slot exactly when some occupied slot holds the recording
id; otherwise it returns false with no process operation; in either
case persistence (the timers table) is untouched and the only effects
are the graceful termination and the wait. -/
theorem C4_manual_stop_spec (recId : Int) (st : SchedState) :
    ((stop_recording recId st).2.2 = true ↔
        ∃ s ∈ st.slots, s.recording_id = recId ∧ s.pid ≠ 0) ∧
    ((stop_recording recId st).2.2 = false →
        (stop_recording recId st).1 = st ∧ (stop_recording recId st).2.1 = []) ∧
    (stop_recording recId st).1.timers = st.timers ∧
    (∀ e ∈ (stop_recording recId st).2.1,
        ∃ p, p ≠ 0 ∧ (e = Effect.sigterm p ∨ e = Effect.waitExit p)) ∧
    ((stop_recording recId st).2.2 = true →
        ∃ pre s post, st.slots = pre ++ s :: post ∧
          s.recording_id = recId ∧ s.pid ≠ 0 ∧
          (stop_recording recId st).1.slots = pre ++ { s with pid := 0 } :: post ∧
          (stop_recording recId st).2.1 =
            [Effect.sigterm s.pid, Effect.waitExit s.pid]) := by
  refine ⟨stopRecordingSlots_found_iff recId st.slots, ?_, rfl, ?_, ?_⟩
  · intro h
    obtain ⟨h1, h2⟩ := stopRecordingSlots_not_found recId st.slots h
    constructor
    · show { st with slots := (stopRecordingSlots recId st.slots).1 } = st
      rw [h1]
    · exact h2
  · intro e he
    replace he : e ∈ (stopRecordingSlots recId st.slots).2.1 := he
    rcases hflag : (stopRecordingSlots recId st.slots).2.2 with _ | _
    · rw [(stopRecordingSlots_not_found recId st.slots hflag).2] at he
      simp at he
    · obtain ⟨pre, m, post, _, _, hpid, _, heff⟩ :=
        stopRecordingSlots_found recId st.slots hflag
      rw [heff] at he
      simp only [List.mem_cons, List.not_mem_nil, or_false] at he
      rcases he with he | he
      · exact ⟨m.pid, hpid, Or.inl he⟩
      · exact ⟨m.pid, hpid, Or.inr he⟩
  · intro h
    obtain ⟨pre, m, post, heq, h1, h2, h3, h4⟩ :=
      stopRecordingSlots_found recId st.slots h
    exact ⟨pre, m, post, heq, h1, h2, h3, h4⟩

/-- Witness for C4: in `c1State`, recording 1 is occupied and is
stopped (flag true); recording 99 is absent, the stop returns false and
changes nothing. -/
theorem C4_manual_stop_spec_witness :
    (stop_recording 1 c1State).2.2 = true ∧
    (stop_recording 99 c1State).1 = c1State ∧
    (stop_recording 99 c1State).2.1 = [] := by
  refine ⟨(C4_manual_stop_spec 1 c1State).1.mpr (by decide), ?_, ?_⟩
  · exact ((C4_manual_stop_spec 99 c1State).2.1 (by decide)).1
  · exact ((C4_manual_stop_spec 99 c1State).2.1 (by decide)).2

/-- C10: a successful manual stop clears the matched slot's pid but
retains its `timer_id`; while any slot still holds that timer id, the
due-timer scan classifies the timer as active and starts nothing for
it (no spawn, no Recording entry, no state change). -/
theorem C10_stop_leaves_timer_marked (st : SchedState) (recId : Int)
    (pre post : List ActiveRecording) (s : ActiveRecording)
    (hslots : st.slots = pre ++ s :: post)
    (hrid : s.recording_id = recId) (hpid : s.pid ≠ 0)
    (hpre : ∀ x ∈ pre, ¬(x.recording_id = recId ∧ x.pid ≠ 0)) :
    (stop_recording recId st).2.2 = true ∧
    (stop_recording recId st).1.slots = pre ++ { s with pid := 0 } :: post ∧
    ({ s with pid := 0 } : ActiveRecording).timer_id = s.timer_id ∧
    (∀ (st2 : SchedState) (now : Int) (t : Timer), t.id = s.timer_id →
        (∃ x ∈ st2.slots, x.timer_id = t.id) →
        start_one now st2 t = (st2, [])) := by
  have hstop := stopRecordingSlots_at recId pre post s hrid hpid hpre
  refine ⟨?_, ?_, rfl, ?_⟩
  · show (stopRecordingSlots recId st.slots).2.2 = true
    rw [hslots, hstop]
  · show (stopRecordingSlots recId st.slots).1 = _
    rw [hslots, hstop]
  · intro st2 now t _ hmem
    exact start_one_of_active now st2 t (is_active_of_mem hmem)

/-- Witness for C10: stopping recording 1 in `c1State` keeps timer id 1
in the slot, and a later due scan for timer 1 starts nothing. -/
theorem C10_stop_leaves_timer_marked_witness :
    (stop_recording 1 c1State).2.2 = true ∧
    (stop_recording 1 c1State).1.slots = [{ c1Slot with pid := 0 }] ∧
    start_one 700 (stop_recording 1 c1State).1 c1Timer =
      ((stop_recording 1 c1State).1, []) := by
  have h := C10_stop_leaves_timer_marked c1State 1 [] [] c1Slot
    (by decide) (by decide) (by decide) (by simp)
  exact ⟨h.1, h.2.1, h.2.2.2 (stop_recording 1 c1State).1 700 c1Timer
    (by decide) (by decide)⟩

/-! ### Preservation of the slot-disjointness invariant -/

/-- Failure of the already-active test means no slot at all holds the
timer id. -/
theorem is_active_eq_false_iff {slots : List ActiveRecording} {tid : Int} :
    is_active slots tid = false ↔ ∀ s ∈ slots, s.timer_id ≠ tid := by
  simp [is_active, List.any_eq_false]

/-- Every element of a populated table is an original slot or the newly
written slot. -/
theorem mem_populateFirstFree {slots : List ActiveRecording} {tid recId : Int}
    {pid : Nat} {endT : Int} {path : String} {b : ActiveRecording}
    (hb : b ∈ populateFirstFree slots tid recId pid endT path) :
    b ∈ slots ∨
      b = { timer_id := tid, recording_id := recId, pid := pid,
            end_time := endT, path := path } := by
  induction slots with
  | nil => simp [populateFirstFree] at hb
  | cons s rest ih =>
    by_cases h : s.pid = 0
    · simp only [populateFirstFree, if_pos h, List.mem_cons] at hb
      rcases hb with hb | hb
      · right; exact hb
      · left; simp [hb]
    · simp only [populateFirstFree, if_neg h, List.mem_cons] at hb
      rcases hb with hb | hb
      · left; simp [hb]
      · rcases ih hb with h1 | h1
        · left; simp [h1]
        · right; exact h1

/-- Populating a timer id held by no slot preserves disjointness. -/
theorem populateFirstFree_disjoint {slots : List ActiveRecording}
    {tid recId : Int} {pid : Nat} {endT : Int} {path : String}
    (hd : SlotsDisjoint slots) (hfresh : ∀ s ∈ slots, s.timer_id ≠ tid) :
    SlotsDisjoint (populateFirstFree slots tid recId pid endT path) := by
  induction slots with
  | nil => simpa [populateFirstFree] using hd
  | cons s rest ih =>
    obtain ⟨hhead, htail⟩ := List.pairwise_cons.mp hd
    by_cases h : s.pid = 0
    · unfold SlotsDisjoint
      simp only [populateFirstFree, if_pos h]
      refine List.pairwise_cons.mpr ⟨?_, htail⟩
      intro b hb hcon
      exact hfresh b (by simp [hb]) hcon.2.2.symm
    · unfold SlotsDisjoint
      simp only [populateFirstFree, if_neg h]
      refine List.pairwise_cons.mpr
        ⟨?_, ih htail (fun x hx => hfresh x (by simp [hx]))⟩
      intro b hb
      rcases mem_populateFirstFree hb with h1 | h1
      · exact hhead b h1
      · intro hcon
        exact hfresh s (by simp) (by rw [hcon.2.2, h1])

/-- Handling one due timer preserves disjointness: either the timer is
already known to some slot and nothing happens, or its id is fresh and
the populated table stays disjoint. -/
theorem start_one_disjoint (now : Int) (st : SchedState) (t : Timer)
    (hd : SlotsDisjoint st.slots) :
    SlotsDisjoint (start_one now st t).1.slots := by
  by_cases h : is_active st.slots t.id = true
  · rw [start_one_of_active now st t h]
    exact hd
  · have hfresh := is_active_eq_false_iff.mp (Bool.not_eq_true _ ▸ h : _)
    show SlotsDisjoint (SchedState.slots _)
    simp only [start_one, if_neg h]
    exact populateFirstFree_disjoint hd hfresh

/-- The whole due-timer loop preserves disjointness. -/
theorem processDueTimers_disjoint (now : Int) (st : SchedState)
    (ts : List Timer) (hd : SlotsDisjoint st.slots) :
    SlotsDisjoint (processDueTimers now st ts).1.slots := by
  induction ts generalizing st with
  | nil => simpa [processDueTimers] using hd
  | cons t rest ih =>
    show SlotsDisjoint (processDueTimers now (start_one now st t).1 rest).1.slots
    exact ih _ (start_one_disjoint now st t hd)

/-- The expiry/liveness handling of one slot returns the slot unchanged
or with its pid cleared. -/
theorem expireSlot_fst (now : Int) (dead : Nat → Bool) (s : ActiveRecording)
    (timers : List Timer) :
    (expireSlot now dead s timers).1 = s ∨
      (expireSlot now dead s timers).1.pid = 0 := by
  unfold expireSlot
  split_ifs <;> simp

/-- Every slot output by the expiry scan is an original slot or has a
cleared pid. -/
theorem mem_expiryScanSlots {now : Int} {dead : Nat → Bool}
    {slots : List ActiveRecording} {timers : List Timer} {b : ActiveRecording}
    (hb : b ∈ (expiryScanSlots now dead slots timers).1) :
    (∃ a ∈ slots, b = a) ∨ b.pid = 0 := by
  induction slots generalizing timers with
  | nil => simp [expiryScanSlots] at hb
  | cons s rest ih =>
    simp only [expiryScanSlots, List.mem_cons] at hb
    rcases hb with hb | hb
    · rcases expireSlot_fst now dead s timers with h | h
      · left; exact ⟨s, by simp, by rw [hb, h]⟩
      · right; rw [hb]; exact h
    · rcases ih hb with ⟨a, ha, hba⟩ | h
      · left; exact ⟨a, by simp [ha], hba⟩
      · right; exact h

/-- The expiry scan preserves disjointness. -/
theorem expiryScanSlots_disjoint (now : Int) (dead : Nat → Bool)
    (slots : List ActiveRecording) (timers : List Timer)
    (hd : SlotsDisjoint slots) :
    SlotsDisjoint (expiryScanSlots now dead slots timers).1 := by
  induction slots generalizing timers with
  | nil => simp [expiryScanSlots, SlotsDisjoint]
  | cons s rest ih =>
    obtain ⟨hhead, htail⟩ := List.pairwise_cons.mp hd
    show List.Pairwise _ (_ :: _)
    refine List.pairwise_cons.mpr ⟨?_, ih _ htail⟩
    intro b hb
    rcases expireSlot_fst now dead s timers with h1 | h1
    · rw [h1]
      rcases mem_expiryScanSlots hb with ⟨a, ha, hba⟩ | h2
      · rw [hba]; exact hhead a ha
      · intro hcon; exact hcon.2.1 h2
    · intro hcon; exact hcon.1 h1

/-- Every slot output by the stop search is an original slot or has a
cleared pid. -/
theorem mem_stopRecordingSlots {recId : Int} {slots : List ActiveRecording}
    {b : ActiveRecording} (hb : b ∈ (stopRecordingSlots recId slots).1) :
    b ∈ slots ∨ b.pid = 0 := by
  induction slots with
  | nil => simpa [stopRecordingSlots] using hb
  | cons s rest ih =>
    by_cases h : s.recording_id = recId ∧ s.pid ≠ 0
    · simp only [stopRecordingSlots, if_pos h, List.mem_cons] at hb
      rcases hb with hb | hb
      · right; rw [hb]
      · left; simp [hb]
    · simp only [stopRecordingSlots, if_neg h, List.mem_cons] at hb
      rcases hb with hb | hb
      · left; simp [hb]
      · rcases ih hb with h1 | h1
        · left; simp [h1]
        · right; exact h1

/-- The manual stop preserves disjointness. -/
theorem stopRecordingSlots_disjoint (recId : Int)
    (slots : List ActiveRecording) (hd : SlotsDisjoint slots) :
    SlotsDisjoint (stopRecordingSlots recId slots).1 := by
  induction slots with
  | nil => simpa [stopRecordingSlots] using hd
  | cons s rest ih =>
    obtain ⟨hhead, htail⟩ := List.pairwise_cons.mp hd
    by_cases h : s.recording_id = recId ∧ s.pid ≠ 0
    · simp only [stopRecordingSlots, if_pos h]
      refine List.pairwise_cons.mpr ⟨?_, htail⟩
      intro b hb hcon
      exact hcon.1 rfl
    · simp only [stopRecordingSlots, if_neg h]
      refine List.pairwise_cons.mpr ⟨?_, ih htail⟩
      intro b hb
      rcases mem_stopRecordingSlots hb with h1 | h1
      · exact hhead b h1
      · intro hcon; exact hcon.2.1 h1

/-- The zeroed start-up table is disjoint. -/
theorem initialSlots_disjoint : SlotsDisjoint initialSlots := by
  unfold SlotsDisjoint initialSlots MAX_ACTIVE_RECORDINGS
  decide

/-- Disjointness holds in every reachable scheduler state. -/
theorem reachable_disjoint {st : SchedState} (h : Reachable st) :
    SlotsDisjoint st.slots := by
  induction h with
  | init timers rid pid => exact initialSlots_disjoint
  | poll now dead _ ih =>
      exact expiryScanSlots_disjoint now dead _ _
        (processDueTimers_disjoint now _ _ ih)
  | stop recId _ ih => exact stopRecordingSlots_disjoint recId _ ih
  | timerAdded t _ ih => exact ih
  | timerRemoved id _ ih => exact ih

/-- C3: a due timer whose identity already matches an occupied slot is
skipped (no spawn, no Recording entry, no state change); and in every
reachable scheduler state no timer identity occupies two occupied
slots. -/
theorem C3_no_duplicate_timer_slots :
    (∀ (now : Int) (st : SchedState) (t : Timer),
        (∃ s ∈ st.slots, s.pid ≠ 0 ∧ s.timer_id = t.id) →
        start_one now st t = (st, [])) ∧
    (∀ st : SchedState, Reachable st → SlotsDisjoint st.slots) := by
  constructor
  · rintro now st t ⟨s, hs, _, hst⟩
    exact start_one_of_active now st t (is_active_of_mem ⟨s, hs, hst⟩)
  · intro st h
    exact reachable_disjoint h

/-- Witness for C3: in `c1State` timer 1 occupies a slot and the due
scan skips it; the start state's table is disjoint. -/
theorem C3_no_duplicate_timer_slots_witness :
    start_one 0 c1State c1Timer = (c1State, []) ∧
    SlotsDisjoint (initState [] 1 1).slots := by
  constructor
  · exact C3_no_duplicate_timer_slots.1 0 c1State c1Timer (by decide)
  · exact C3_no_duplicate_timer_slots.2 _ (Reachable.init [] 1 1)

end ZapLinkWeb
